import Mathlib

/-!
Shallow embedding of the Tabulate tab-clustering pipeline.

Sources embedded:
- `src/background/tabManager.ts`: protected-URL filtering, domain extraction,
  tab querying, page-metadata extraction, per-tab metadata extraction with a
  3000 ms timeout, `buildTabData`, and the batched `getAllTabsWithMetadata`.
- `src/background/index.ts` (lines 312-364): `analyzeTabs`, including the
  zero-tab short circuit, id-to-record resolution and color rotation.
- `src/background/llmService.ts` is referenced by the background service
  worker but its source file is not part of the repository snapshot; its
  validator/reconciler, error taxonomy and `clusterTabs` are modelled from
  the specification (sections 4.3-4.5) and marked as such below.

JavaScript asynchrony is embedded by explicit oracles: the result of a
`chrome.scripting.executeScript` call is an explicit `ScriptCall` value per
tab id, the LLM network call is a function argument, and `Date.now()`,
`uuidv4()` and the platform URL parser are passed in as parameters.
Machine numbers (tab ids, timestamps) are modelled as `Nat`; JSON numbers
(confidence) as `Rat`.
-/

/-- JavaScript string truthiness: `undefined`/`null` and the empty string are
falsy.  `truthyStr o` is `some s` exactly when the underlying value is a
non-empty string, mirroring idioms such as `x || undefined`. -/
def truthyStr (o : Option String) : Option String :=
  match o with
  | none => none
  | some s => if s = "" then none else some s

/-- JavaScript number truthiness on optional naturals: `undefined` and `0` are
falsy, mirroring idioms such as `tab.lastAccessed || Date.now()`. -/
def truthyNat (o : Option Nat) : Option Nat :=
  match o with
  | none => none
  | some n => if n = 0 then none else some n

/-- The `PROTECTED_URL_PATTERNS` list of `tabManager.ts`.  Every regex in the
source is anchored at the start (`/^.../`) and contains no other regex
operators, so each one is exactly a string-prefix test. -/
def PROTECTED_URL_PATTERNS : List String :=
  ["chrome://", "chrome-extension://", "about:", "edge://", "brave://",
   "moz-extension://", "file://", "view-source:", "devtools://"]

/-- `isProtectedUrl` from `tabManager.ts`: some pattern matches the URL.
Each anchored regex is exactly a character-prefix test on the URL. -/
def isProtectedUrl (url : String) : Bool :=
  PROTECTED_URL_PATTERNS.any (fun pat => pat.data.isPrefixOf url.data)

/-- The value produced by the platform's `new URL(...)` constructor.  Only the
`hostname` component is consumed by the code under verification. -/
structure URLRec where
  hostname : String
deriving DecidableEq

/-- `extractDomain` from `tabManager.ts`.  The platform URL parser is an
external interface, passed in as `parse`; a parse failure (the constructor
throwing, modelled as `none`) is caught and mapped to `"unknown"`. -/
def extractDomain (parse : String → Option URLRec) (url : String) : String :=
  match parse url with
  | some u => u.hostname
  | none => "unknown"

/-- A host-reported tab handle as produced by `chrome.tabs.query({})`: every
field the platform may omit is optional. -/
structure ChromeTab where
  id : Option Nat
  url : Option String
  title : Option String
  favIconUrl : Option String
  status : Option String
  lastAccessed : Option Nat
deriving DecidableEq

/-- The `RawTab` interface of `tabManager.ts` (after the filter, `id` and
`url` are guaranteed present). -/
structure RawTab where
  id : Nat
  url : String
  title : String
  favIconUrl : Option String
  status : String
  lastAccessed : Option Nat
deriving DecidableEq

/-- `queryAllTabs` from `tabManager.ts`: drop tabs with a falsy `id` or `url`
(`!tab.id || !tab.url`), drop protected URLs, then map to `RawTab` with
`title || 'Untitled'` and `status || 'complete'` defaults. -/
def queryAllTabs (tabs : List ChromeTab) : List RawTab :=
  tabs.filterMap (fun tab =>
    match truthyNat tab.id, truthyStr tab.url with
    | some i, some u =>
      if isProtectedUrl u then none
      else some { id := i, url := u,
                  title := (truthyStr tab.title).getD "Untitled",
                  favIconUrl := tab.favIconUrl,
                  status := (truthyStr tab.status).getD "complete",
                  lastAccessed := tab.lastAccessed }
    | _, _ => none)

/-- The four Open Graph properties read by `extractPageMetadata`. -/
structure OgTags where
  title : Option String
  description : Option String
  type : Option String
  image : Option String
deriving DecidableEq

/-- The `PageMetadata` interface of `tabManager.ts`. -/
structure PageMetadata where
  description : Option String
  ogTags : Option OgTags
  contentSnippet : Option String
deriving DecidableEq

/-- The slice of the DOM read by `extractPageMetadata`: the `content`
attribute of the meta-description tag and of the four `og:` meta tags
(`none` when the tag or attribute is absent), and `document.body.innerText`
(`none` when there is no body or reading it throws). -/
structure PageDoc where
  metaDescription : Option String
  ogTitle : Option String
  ogDescription : Option String
  ogType : Option String
  ogImage : Option String
  body : Option String
deriving DecidableEq

/-- JavaScript `\s` on the ASCII range: the whitespace classes produced by
`innerText` that `replace(/\s+/g, ' ')` collapses. -/
def isJsWs (c : Char) : Bool :=
  c == ' ' || c == '\t' || c == '\n' || c == '\r' || c == '\x0b' || c == '\x0c'

/-- One pass of `replace(/\s+/g, ' ')`: every maximal whitespace run becomes a
single space. -/
def collapseRuns : List Char → List Char
  | [] => []
  | c :: rest =>
    if isJsWs c then ' ' :: collapseRuns (rest.dropWhile isJsWs)
    else c :: collapseRuns rest
termination_by l => l.length
decreasing_by
  all_goals simp
  exact Nat.lt_succ_of_le ((List.dropWhile_sublist isJsWs).length_le)

/-- JavaScript `String.prototype.trim`: strip whitespace from both ends. -/
def trimWs (l : List Char) : List Char :=
  ((l.dropWhile isJsWs).reverse.dropWhile isJsWs).reverse

/-- `extractPageMetadata` from `tabManager.ts` (the function injected into the
page).  `description` is coerced with `|| undefined`; `ogTags` is omitted
entirely when none of the four properties is truthy; `contentSnippet` is
computed only when neither `description` nor the raw `og:description` is
truthy, as `body.innerText.replace(/\s+/g, ' ').trim().slice(0, 500) ||
undefined`.  `slice` on code units is modelled as `List.take` on chars. -/
def extractPageMetadata (doc : PageDoc) : PageMetadata :=
  let description := truthyStr doc.metaDescription
  let ogTags : Option OgTags :=
    if (truthyStr doc.ogTitle).isSome || (truthyStr doc.ogDescription).isSome
        || (truthyStr doc.ogType).isSome || (truthyStr doc.ogImage).isSome then
      some { title := truthyStr doc.ogTitle,
             description := truthyStr doc.ogDescription,
             type := truthyStr doc.ogType,
             image := truthyStr doc.ogImage }
    else none
  let contentSnippet : Option String :=
    if description.isNone && (truthyStr doc.ogDescription).isNone then
      match doc.body with
      | some text => truthyStr (some (String.mk ((trimWs (collapseRuns text.data)).take 500)))
      | none => none
    else none
  { description := description, ogTags := ogTags, contentSnippet := contentSnippet }

/-- One `chrome.scripting.executeScript` call, as an explicit outcome: how
long the injection took to settle and whether it resolved (with the injected
frame's document, or no result) or rejected. -/
structure ScriptCall where
  latency : Nat
  outcome : Except String (Option PageDoc)

/-- The fixed extraction timeout of `extractTabMetadata` (`timeoutMs`). -/
def timeoutMs : Nat := 3000

/-- `extractTabMetadata` from `tabManager.ts`: race the injection against the
3000 ms timer (the timer rejecting is caught and becomes `null`), map any
rejection to `null`, and unwrap `results[0]?.result`.  The injected function
is `extractPageMetadata`, so a resolved call carries its value. -/
def extractTabMetadata (call : ScriptCall) : Option PageMetadata :=
  if timeoutMs < call.latency then none
  else
    match call.outcome with
    | Except.error _ => none
    | Except.ok none => none
    | Except.ok (some doc) => some (extractPageMetadata doc)

/-- The `TabData` interface of `src/types/index.ts`. -/
structure TabData where
  id : Nat
  url : String
  title : String
  domain : String
  favicon : String
  description : Option String
  ogTags : Option OgTags
  contentSnippet : Option String
  lastAccessed : Nat
deriving DecidableEq

/-- `buildTabData` from `tabManager.ts`: extract metadata only for tabs whose
`status` is `'complete'`, then assemble the record; `metadata?.field` is
`Option.bind`, `favIconUrl || ''` and `lastAccessed || Date.now()` are
truthiness defaults. -/
def buildTabData (calls : Nat → ScriptCall) (parse : String → Option URLRec)
    (now : Nat) (rawTab : RawTab) : TabData :=
  let metadata : Option PageMetadata :=
    if rawTab.status = "complete" then extractTabMetadata (calls rawTab.id) else none
  { id := rawTab.id, url := rawTab.url, title := rawTab.title,
    domain := extractDomain parse rawTab.url,
    favicon := (truthyStr rawTab.favIconUrl).getD "",
    description := metadata.bind PageMetadata.description,
    ogTags := metadata.bind PageMetadata.ogTags,
    contentSnippet := metadata.bind PageMetadata.contentSnippet,
    lastAccessed := (truthyNat rawTab.lastAccessed).getD now }

/-- The batching loop of `getAllTabsWithMetadata` (`BATCH_SIZE = 10`): the
slices `rawTabs.slice(i, i + 10)` taken in order. -/
def toBatches {α : Type} : List α → List (List α)
  | [] => []
  | x :: xs => (x :: xs.take 9) :: toBatches (xs.drop 9)
termination_by l => l.length
decreasing_by simp [List.length_drop]; omega

/-- `getAllTabsWithMetadata` from `tabManager.ts`: query the eligible tabs,
process them batch by batch (`Promise.all` over a batch is an
order-preserving map), and concatenate the batch results in order. -/
def getAllTabsWithMetadata (tabs : List ChromeTab) (calls : Nat → ScriptCall)
    (parse : String → Option URLRec) (now : Nat) : List TabData :=
  ((toBatches (queryAllTabs tabs)).map
    (fun batch => batch.map (buildTabData calls parse now))).flatten

/-- The expected batch sizes for an input of a given length with batch size
10: used to state the batching shape of `toBatches`. -/
def chunkLens (n : Nat) : List Nat :=
  if n = 0 then [] else min n 10 :: chunkLens (n - 10)
termination_by n
decreasing_by omega

/-- Modelled from the spec: one proposed workspace of the raw LLM payload
before validation (spec section 3, `ClusterProposal` pre-validation; the
repository's `llmService.ts` is not in the source snapshot).  Every field is
untrusted and may be absent; a non-numeric `confidence` is modelled as
`none`. -/
structure RawProposal where
  name : Option String
  tabIds : Option (List Nat)
  summary : Option String
  keyEntities : Option (List String)
  suggestedActions : Option (List String)
  confidence : Option Rat
deriving DecidableEq

/-- Modelled from the spec: the parsed LLM payload handed to the
validator (spec section 4.4 after steps 1-2).  `workspaces` is `none` when
the field is absent or not a list; `unclustered` defaults to the empty
list. -/
structure RawPayload where
  workspaces : Option (List RawProposal)
  unclustered : Option (List Nat)
deriving DecidableEq

/-- One normalized workspace of a validated `ClusteringResult`
(`src/types/index.ts`). -/
structure ClusterProposal where
  name : String
  tabIds : List Nat
  summary : String
  keyEntities : List String
  suggestedActions : List String
  confidence : Rat
deriving DecidableEq

/-- The `ClusteringResult` interface of `src/types/index.ts`. -/
structure ClusteringResult where
  workspaces : List ClusterProposal
  unclustered : List Nat
deriving DecidableEq

/-- Modelled from the spec: the error taxonomy of section 4.5. -/
inductive ClusterError where
  | missingCredential
  | invalidCredential
  | rateLimited
  | malformedResponse (msg : String)
  | unknown (msg : String)
deriving DecidableEq

/-- Modelled from the spec: normalization of one workspace (spec section 4.4
step 8): default missing `name`, `summary` and lists, default `confidence`
to 0.5 when not numeric. -/
def normalizeProposal (w : RawProposal) : ClusterProposal :=
  { name := w.name.getD "Unnamed Workspace",
    tabIds := w.tabIds.getD [],
    summary := w.summary.getD "",
    keyEntities := w.keyEntities.getD [],
    suggestedActions := w.suggestedActions.getD [],
    confidence := w.confidence.getD (1 / 2) }

/-- Modelled from the spec: the seen-set walk of spec section 4.4 steps 5-6.
Each id is checked against the accumulating seen-set; an id already seen is a
hard failure whose message names the id. -/
def addIds (msg : String) : List Nat → List Nat → Except ClusterError (List Nat)
  | seen, [] => Except.ok seen
  | seen, i :: rest =>
    if i ∈ seen then Except.error (ClusterError.malformedResponse (msg ++ toString i))
    else addIds msg (i :: seen) rest

/-- Modelled from the spec: walk all `tabIds` across all workspaces (spec
section 4.4 steps 4-5): a workspace without a `tabIds` list is a hard
failure naming the workspace; otherwise its ids are accumulated. -/
def collectIds : List RawProposal → List Nat → Except ClusterError (List Nat)
  | [], seen => Except.ok seen
  | w :: rest, seen =>
    match w.tabIds with
    | none =>
      Except.error (ClusterError.malformedResponse
        ("workspace missing tabIds: " ++ w.name.getD "Unnamed Workspace"))
    | some ids =>
      match addIds "duplicate tab ID: " seen ids with
      | Except.error e => Except.error e
      | Except.ok seen2 => collectIds rest seen2

/-- All ids the payload places in workspaces, in payload order. -/
def flatTabIds (ws : List RawProposal) : List Nat :=
  ws.flatMap (fun w => w.tabIds.getD [])

/-- All ids the payload mentions anywhere (workspaces, then `unclustered`). -/
def allPayloadIds (p : RawPayload) : List Nat :=
  flatTabIds (p.workspaces.getD []) ++ p.unclustered.getD []

/-- Modelled from the spec: the validator/reconciler of spec section 4.4
steps 3-8.  Require a `workspaces` list; walk workspace ids then the
`unclustered` list against one seen-set, failing hard on any id seen twice;
append the input ids never seen to `unclustered` (repair, not rejection);
normalize every workspace. -/
def validateClusteringResult (inputIds : List Nat) (p : RawPayload) :
    Except ClusterError ClusteringResult :=
  match p.workspaces with
  | none => Except.error (ClusterError.malformedResponse "missing workspaces array")
  | some ws =>
    match collectIds ws [] with
    | Except.error e => Except.error e
    | Except.ok seenW =>
      match addIds "appears in both workspace and unclustered: " seenW
          (p.unclustered.getD []) with
      | Except.error e => Except.error e
      | Except.ok seenAll =>
        Except.ok { workspaces := ws.map normalizeProposal,
                    unclustered := p.unclustered.getD []
                      ++ inputIds.filter (fun i => decide (i ∉ seenAll)) }

/-- Modelled from the spec: `clusterTabs` of the Clustering Request Builder
(spec section 4.3).  Zero tabs and exactly one tab short-circuit without any
network call; otherwise exactly one request is made (`net` is the provider
call, already parsed into a payload; a transport/parse failure is its
error).  The second component counts LLM network calls. -/
def clusterTabs (net : List TabData → Except ClusterError RawPayload)
    (tabs : List TabData) : Except ClusterError ClusteringResult × Nat :=
  match tabs with
  | [] => (Except.ok { workspaces := [], unclustered := [] }, 0)
  | [t] => (Except.ok { workspaces := [], unclustered := [t.id] }, 0)
  | _ =>
    match net tabs with
    | Except.error e => (Except.error e, 1)
    | Except.ok p => (validateClusteringResult (tabs.map TabData.id) p, 1)

/-- The `Workspace` interface of `src/types/index.ts` (color as a plain
string, the chrome tab-group color name). -/
structure Workspace where
  id : String
  name : String
  summary : String
  tabs : List TabData
  keyEntities : List String
  suggestedActions : List String
  confidence : Rat
  createdAt : Nat
  isSaved : Bool
  color : String
deriving DecidableEq

/-- The `AnalysisResult` shape of `analyzeTabs` in `src/background/index.ts`. -/
structure AnalysisResult where
  workspaces : List Workspace
  unclustered : List TabData
deriving DecidableEq

/-- `WORKSPACE_COLORS` from `src/background/index.ts`. -/
def WORKSPACE_COLORS : List String :=
  ["blue", "green", "yellow", "pink", "purple", "cyan", "orange", "red"]

/-- `getNextColor` from `src/background/index.ts`: the mutable `colorIndex`
counter is reset to 0 before each analysis and incremented once per
workspace, so the i-th workspace gets `WORKSPACE_COLORS[i % 8]`. -/
def getNextColor (colorIndex : Nat) : String :=
  WORKSPACE_COLORS.getD (colorIndex % WORKSPACE_COLORS.length) "blue"

/-- `new Map(tabs.map(t => [t.id, t])).get(i)`: a JavaScript `Map` keeps the
last insertion for a repeated key, so lookup is `find?` over the reversed
list. -/
def tabMapGet (tabs : List TabData) (i : Nat) : Option TabData :=
  tabs.reverse.find? (fun t => t.id == i)

/-- `ids.map(id => tabMap.get(id)).filter(t => t !== undefined)` from
`analyzeTabs`: ids with no matching input tab are silently dropped. -/
def resolveIds (tabs : List TabData) (ids : List Nat) : List TabData :=
  ids.filterMap (tabMapGet tabs)

/-- One workspace object built by `analyzeTabs` for the i-th cluster:
`uuidv4()` and `Date.now()` are passed in (`uuids i`, `nowT`). -/
def mkWorkspace (uuids : Nat → String) (nowT : Nat) (tabs : List TabData)
    (i : Nat) (c : ClusterProposal) : Workspace :=
  { id := uuids i, name := c.name, summary := c.summary,
    tabs := resolveIds tabs c.tabIds,
    keyEntities := c.keyEntities, suggestedActions := c.suggestedActions,
    confidence := c.confidence, createdAt := nowT, isSaved := false,
    color := getNextColor i }

/-- The `clusterResult.workspaces.map(...)` loop of `analyzeTabs`, with the
color/uuid counter made explicit. -/
def buildWorkspaces (uuids : Nat → String) (nowT : Nat) (tabs : List TabData) :
    Nat → List ClusterProposal → List Workspace
  | _, [] => []
  | i, c :: rest =>
    mkWorkspace uuids nowT tabs i c :: buildWorkspaces uuids nowT tabs (i + 1) rest

/-- `analyzeTabs` from `src/background/index.ts` (lines 312-364), success
path as `Except.ok`, the caught error as `Except.error`.  The tab list is
the enriched output of `getAllTabsWithMetadata`, passed in directly.  The
second component counts LLM network calls. -/
def analyzeTabs (net : List TabData → Except ClusterError RawPayload)
    (uuids : Nat → String) (nowT : Nat) (tabs : List TabData) :
    Except ClusterError AnalysisResult × Nat :=
  if tabs.length = 0 then
    (Except.ok { workspaces := [], unclustered := [] }, 0)
  else
    match clusterTabs net tabs with
    | (Except.error e, n) => (Except.error e, n)
    | (Except.ok cr, n) =>
      (Except.ok { workspaces := buildWorkspaces uuids nowT tabs 0 cr.workspaces,
                   unclustered := resolveIds tabs cr.unclustered }, n)

/-! ### Concrete fixtures used by witnesses and the counterexample -/

/-- A minimal enriched tab record with a given id. -/
def mkTab (i : Nat) : TabData :=
  { id := i, url := "https://example.org/", title := "T", domain := "example.org",
    favicon := "", description := none, ogTags := none, contentSnippet := none,
    lastAccessed := 1 }

/-- A payload that references id 99, which is outside the input set. -/
def cexPayload : RawPayload :=
  { workspaces := some [{ name := some "W", tabIds := some [1, 99], summary := none,
                          keyEntities := none, suggestedActions := none,
                          confidence := some 1 }],
    unclustered := some [] }

/-- A well-formed payload over input ids 1..3 that omits id 3. -/
def wPayload : RawPayload :=
  { workspaces := some [{ name := some "A", tabIds := some [1, 2], summary := none,
                          keyEntities := none, suggestedActions := none,
                          confidence := some 1 }],
    unclustered := none }

/-- The result the reconciler produces for `wPayload` on input `[1, 2, 3]`. -/
def wResult : ClusteringResult :=
  { workspaces := [{ name := "A", tabIds := [1, 2], summary := "", keyEntities := [],
                     suggestedActions := [], confidence := 1 }],
    unclustered := [3] }

/-- A proposal list assigning id 7 twice. -/
def dupWs : List RawProposal :=
  [{ name := some "W", tabIds := some [7, 7], summary := none, keyEntities := none,
     suggestedActions := none, confidence := none }]

/-- A payload whose single workspace lists id 7 twice. -/
def dupPayload : RawPayload :=
  { workspaces := some dupWs, unclustered := none }

/-- 23 eligible host tabs (ids 1..23, ordinary https URLs). -/
def fix23 : List ChromeTab :=
  (List.range 23).map (fun i =>
    { id := some (i + 1), url := some "https://t.example/", title := none,
      favIconUrl := none, status := none, lastAccessed := none })

/-- A script-call oracle in which every injection rejects. -/
def fixCallsErr : Nat → ScriptCall :=
  fun _ => { latency := 0, outcome := Except.error "injection failed" }

/-- A URL parser that always fails. -/
def fixParseNone : String → Option URLRec := fun _ => none

/-- A URL parser that always returns host `e.com`. -/
def fixParseSome : String → Option URLRec := fun _ => some { hostname := "e.com" }

/-- A page with a non-empty meta description and a long body. -/
def fixDocDesc : PageDoc :=
  { metaDescription := some "hello", ogTitle := none, ogDescription := none,
    ogType := none, ogImage := none, body := some "a very long body text" }

/-- A page with no descriptions and a whitespace-heavy body. -/
def fixDocBody : PageDoc :=
  { metaDescription := none, ogTitle := none, ogDescription := none,
    ogType := none, ogImage := none, body := some "  a   b  " }

/-- An empty page. -/
def fixDoc0 : PageDoc :=
  { metaDescription := none, ogTitle := none, ogDescription := none,
    ogType := none, ogImage := none, body := none }

/-- An injection that resolves with a document, but only after 4000 ms. -/
def fixSlowCall : ScriptCall :=
  { latency := 4000, outcome := Except.ok (some fixDoc0) }

/-- A fully loaded raw tab with id 5. -/
def fixRawC : RawTab :=
  { id := 5, url := "https://x.example/", title := "T", favIconUrl := none,
    status := "complete", lastAccessed := none }

/-- One protected tab and one ordinary tab. -/
def fixCtsMix : List ChromeTab :=
  [{ id := some 1, url := some "chrome://settings", title := none, favIconUrl := none,
     status := none, lastAccessed := none },
   { id := some 2, url := some "https://ok.example/a", title := none, favIconUrl := none,
     status := none, lastAccessed := none }]

/-- A network oracle that always fails with a transport error. -/
def fixNetFail : List TabData → Except ClusterError RawPayload :=
  fun _ => Except.error (ClusterError.unknown "network down")

/-- A network oracle returning a fixed well-formed payload over ids 1 and 2. -/
def fixNetOk : List TabData → Except ClusterError RawPayload :=
  fun _ =>
    Except.ok { workspaces := some [{ name := some "W", tabIds := some [1, 2],
                                      summary := some "S", keyEntities := some [],
                                      suggestedActions := some [],
                                      confidence := some 1 }],
                unclustered := some [] }

/-- A deterministic uuid source. -/
def fixUuids : Nat → String := fun _ => "uuid"

/-- The two enriched tabs used in the `analyzeTabs` witness. -/
def fixTabs : List TabData := [mkTab 1, mkTab 2]

/-- The analysis result `analyzeTabs` produces for `fixTabs` with `fixNetOk`. -/
def fixRes : AnalysisResult :=
  { workspaces := [{ id := "uuid", name := "W", summary := "S",
                     tabs := [mkTab 1, mkTab 2], keyEntities := [],
                     suggestedActions := [], confidence := 1, createdAt := 7,
                     isSaved := false, color := "blue" }],
    unclustered := [] }

/-- The raw tab that survives `queryAllTabs` on `fixCtsMix`. -/
def fixR0 : RawTab :=
  { id := 2, url := "https://ok.example/a", title := "Untitled", favIconUrl := none,
    status := "complete", lastAccessed := none }

/-! ### Helper lemmas -/

theorem toBatches_flatten {α β : Type} (f : α → β) (l : List α) :
    ((toBatches l).map (fun b => b.map f)).flatten = l.map f := by
  have H : ∀ (n : Nat) (l : List α), l.length ≤ n →
      ((toBatches l).map (fun b => b.map f)).flatten = l.map f := by
    intro n
    induction n with
    | zero =>
      intro l hl
      have hnil : l = [] := List.eq_nil_of_length_eq_zero (Nat.le_zero.mp hl)
      subst hnil
      simp [toBatches]
    | succ n ih =>
      intro l hl
      cases l with
      | nil => simp [toBatches]
      | cons x xs =>
        rw [toBatches]
        simp only [List.map_cons, List.flatten_cons]
        rw [ih (xs.drop 9) (by simp only [List.length_drop]; simp at hl; omega)]
        rw [← List.map_cons, ← List.map_append, List.cons_append, List.take_append_drop]
        rw [List.map_cons]
  exact H l.length l le_rfl

theorem toBatches_lengths {α : Type} (l : List α) :
    (toBatches l).map List.length = chunkLens l.length := by
  have H : ∀ (n : Nat) (l : List α), l.length ≤ n →
      (toBatches l).map List.length = chunkLens l.length := by
    intro n
    induction n with
    | zero =>
      intro l hl
      have hnil : l = [] := List.eq_nil_of_length_eq_zero (Nat.le_zero.mp hl)
      subst hnil
      simp [toBatches, chunkLens]
    | succ n ih =>
      intro l hl
      cases l with
      | nil => simp [toBatches, chunkLens]
      | cons x xs =>
        rw [toBatches]
        simp only [List.map_cons]
        rw [ih (xs.drop 9) (by simp only [List.length_drop]; simp at hl; omega)]
        simp only [List.length_cons, List.length_drop]
        conv_rhs => rw [chunkLens]
        rw [if_neg (by omega)]
        congr 1
        · simp only [List.length_cons, List.length_take]
          rcases Nat.le_total 9 xs.length with h | h
          · rw [Nat.min_eq_left h, Nat.min_eq_right (by omega)]
          · rw [Nat.min_eq_right h, Nat.min_eq_left (by omega)]
  exact H l.length l le_rfl

theorem addIds_ok_eq (msg : String) :
    ∀ (l seen s : List Nat), addIds msg seen l = Except.ok s → s = l.reverse ++ seen := by
  intro l
  induction l with
  | nil =>
    intro seen s h
    simp [addIds] at h
    simp [h.symm]
  | cons i rest ih =>
    intro seen s h
    rw [addIds] at h
    by_cases hi : i ∈ seen
    · simp [hi] at h
    · simp only [hi, if_false] at h
      have := ih (i :: seen) s h
      simp [this, List.reverse_cons]

theorem addIds_ok_nodup (msg : String) :
    ∀ (l seen s : List Nat), addIds msg seen l = Except.ok s → seen.Nodup → s.Nodup := by
  intro l
  induction l with
  | nil =>
    intro seen s h hs
    simp [addIds] at h
    simpa [h.symm] using hs
  | cons i rest ih =>
    intro seen s h hs
    rw [addIds] at h
    by_cases hi : i ∈ seen
    · simp [hi] at h
    · simp only [hi, if_false] at h
      exact ih (i :: seen) s h (by simp [List.nodup_cons, hi, hs])

theorem addIds_error_shape (msg : String) :
    ∀ (l seen : List Nat) (e : ClusterError), addIds msg seen l = Except.error e →
      ∃ m, e = ClusterError.malformedResponse m := by
  intro l
  induction l with
  | nil =>
    intro seen e h
    simp [addIds] at h
  | cons i rest ih =>
    intro seen e h
    rw [addIds] at h
    by_cases hi : i ∈ seen
    · simp only [hi, if_true] at h
      exact ⟨msg ++ toString i, by cases h; rfl⟩
    · simp only [hi, if_false] at h
      exact ih (i :: seen) e h

theorem collectIds_ok_eq :
    ∀ (ws : List RawProposal) (seen s : List Nat), collectIds ws seen = Except.ok s →
      s = (flatTabIds ws).reverse ++ seen := by
  intro ws
  induction ws with
  | nil =>
    intro seen s h
    simp [collectIds] at h
    simp [flatTabIds, h.symm]
  | cons w rest ih =>
    intro seen s h
    rw [collectIds] at h
    cases hti : w.tabIds with
    | none => simp [hti] at h
    | some ids =>
      simp only [hti] at h
      cases hadd : addIds "duplicate tab ID: " seen ids with
      | error e => simp [hadd] at h
      | ok seen2 =>
        simp only [hadd] at h
        have h2 := addIds_ok_eq _ ids seen seen2 hadd
        have h3 := ih seen2 s h
        simp [flatTabIds, h3, h2, hti, List.reverse_append]

theorem collectIds_ok_nodup :
    ∀ (ws : List RawProposal) (seen s : List Nat), collectIds ws seen = Except.ok s →
      seen.Nodup → s.Nodup := by
  intro ws
  induction ws with
  | nil =>
    intro seen s h hs
    simp [collectIds] at h
    simpa [h.symm] using hs
  | cons w rest ih =>
    intro seen s h hs
    rw [collectIds] at h
    cases hti : w.tabIds with
    | none => simp [hti] at h
    | some ids =>
      simp only [hti] at h
      cases hadd : addIds "duplicate tab ID: " seen ids with
      | error e => simp [hadd] at h
      | ok seen2 =>
        simp only [hadd] at h
        exact ih seen2 s h (addIds_ok_nodup _ ids seen seen2 hadd hs)

theorem collectIds_error_shape :
    ∀ (ws : List RawProposal) (seen : List Nat) (e : ClusterError),
      collectIds ws seen = Except.error e →
      ∃ m, e = ClusterError.malformedResponse m := by
  intro ws
  induction ws with
  | nil =>
    intro seen e h
    simp [collectIds] at h
  | cons w rest ih =>
    intro seen e h
    rw [collectIds] at h
    cases hti : w.tabIds with
    | none =>
      simp only [hti] at h
      exact ⟨_, by cases h; rfl⟩
    | some ids =>
      simp only [hti] at h
      cases hadd : addIds "duplicate tab ID: " seen ids with
      | error e2 =>
        simp only [hadd] at h
        injection h with h2
        subst h2
        exact addIds_error_shape _ ids seen e2 hadd
      | ok seen2 =>
        simp only [hadd] at h
        exact ih seen2 e h

theorem validate_ok_spec (inputIds : List Nat) (p : RawPayload) (r : ClusteringResult)
    (h : validateClusteringResult inputIds p = Except.ok r) :
    ∃ ws, p.workspaces = some ws ∧
      (flatTabIds ws ++ p.unclustered.getD []).Nodup ∧
      r.workspaces = ws.map normalizeProposal ∧
      r.unclustered = p.unclustered.getD [] ++
        inputIds.filter (fun i => decide (i ∉ flatTabIds ws ++ p.unclustered.getD [])) := by
  rw [validateClusteringResult] at h
  cases hw : p.workspaces with
  | none => simp [hw] at h
  | some ws =>
    simp only [hw] at h
    cases hc : collectIds ws [] with
    | error e => simp [hc] at h
    | ok seenW =>
      simp only [hc] at h
      cases ha : addIds "appears in both workspace and unclustered: " seenW
          (p.unclustered.getD []) with
      | error e => simp [ha] at h
      | ok seenAll =>
        simp only [ha] at h
        injection h with h
        subst h
        have hW : seenW = (flatTabIds ws).reverse := by
          simpa using collectIds_ok_eq ws [] seenW hc
        have hA : seenAll = (flatTabIds ws ++ p.unclustered.getD []).reverse := by
          have := addIds_ok_eq _ (p.unclustered.getD []) seenW seenAll ha
          rw [this, hW, List.reverse_append]
        have hNodupW : seenW.Nodup := collectIds_ok_nodup ws [] seenW hc (by simp)
        have hNodupA : seenAll.Nodup :=
          addIds_ok_nodup _ (p.unclustered.getD []) seenW seenAll ha hNodupW
        refine ⟨ws, rfl, ?_, rfl, ?_⟩
        · rw [hA] at hNodupA
          exact List.nodup_reverse.mp hNodupA
        · dsimp only
          congr 1
          apply List.filter_congr
          intro x _
          simp [hA, List.mem_reverse, Bool.and_comm]

theorem validate_error_shape (inputIds : List Nat) (p : RawPayload) (e : ClusterError)
    (h : validateClusteringResult inputIds p = Except.error e) :
    ∃ m, e = ClusterError.malformedResponse m := by
  rw [validateClusteringResult] at h
  cases hw : p.workspaces with
  | none =>
    simp only [hw] at h
    exact ⟨_, by cases h; rfl⟩
  | some ws =>
    simp only [hw] at h
    cases hc : collectIds ws [] with
    | error e2 =>
      simp only [hc] at h
      injection h with h2
      subst h2
      exact collectIds_error_shape ws [] e2 hc
    | ok seenW =>
      simp only [hc] at h
      cases ha : addIds "appears in both workspace and unclustered: " seenW
          (p.unclustered.getD []) with
      | error e2 =>
        simp only [ha] at h
        injection h with h2
        subst h2
        exact addIds_error_shape _ (p.unclustered.getD []) seenW e2 ha
      | ok seenAll =>
        simp [ha] at h

theorem flatMap_normalize (ws : List RawProposal) :
    (ws.map normalizeProposal).flatMap ClusterProposal.tabIds = flatTabIds ws := by
  rw [List.flatMap_map]
  rfl

theorem nodup_sub_filter_perm (L inputIds : List Nat) (hL : L.Nodup)
    (hI : inputIds.Nodup) (hsub : ∀ i ∈ L, i ∈ inputIds) :
    (L ++ inputIds.filter (fun i => decide (i ∉ L))).Perm inputIds := by
  rw [List.perm_iff_count]
  intro a
  rw [List.count_append]
  by_cases ha : a ∈ L
  · rw [List.count_eq_one_of_mem hL ha,
        List.count_eq_zero_of_not_mem (by simp [List.mem_filter, ha]),
        List.count_eq_one_of_mem hI (hsub a ha)]
  · rw [List.count_eq_zero_of_not_mem ha, List.count_filter (by simp [ha])]
    omega

theorem mem_queryAllTabs (cts : List ChromeTab) (r : RawTab)
    (h : r ∈ queryAllTabs cts) :
    ∃ ct ∈ cts, truthyNat ct.id = some r.id ∧ truthyStr ct.url = some r.url ∧
      isProtectedUrl r.url = false ∧
      r.title = (truthyStr ct.title).getD "Untitled" ∧
      r.status = (truthyStr ct.status).getD "complete" := by
  rw [queryAllTabs, List.mem_filterMap] at h
  obtain ⟨ct, hct, hf⟩ := h
  cases hid : truthyNat ct.id with
  | none => simp [hid] at hf
  | some i =>
    cases hurl : truthyStr ct.url with
    | none => simp [hid, hurl] at hf
    | some u =>
      simp only [hid, hurl] at hf
      by_cases hprot : isProtectedUrl u
      · simp [hprot] at hf
      · rw [if_neg hprot] at hf
        injection hf with hf
        subst hf
        exact ⟨ct, hct, by simp [hid], by simp [hurl], by simpa using hprot, rfl, rfl⟩

theorem mem_getAllTabsWithMetadata (cts : List ChromeTab) (calls : Nat → ScriptCall)
    (parse : String → Option URLRec) (now : Nat) (d : TabData)
    (h : d ∈ getAllTabsWithMetadata cts calls parse now) :
    ∃ r ∈ queryAllTabs cts, d = buildTabData calls parse now r := by
  rw [getAllTabsWithMetadata, toBatches_flatten, List.mem_map] at h
  obtain ⟨r, hr, hd⟩ := h
  exact ⟨r, hr, hd.symm⟩

theorem mem_resolveIds (tabs : List TabData) (ids : List Nat) (d : TabData)
    (h : d ∈ resolveIds tabs ids) : d ∈ tabs ∧ d.id ∈ ids := by
  rw [resolveIds, List.mem_filterMap] at h
  obtain ⟨i, hi, hfind⟩ := h
  rw [tabMapGet] at hfind
  constructor
  · exact List.mem_reverse.mp (List.mem_of_find?_eq_some hfind)
  · have := List.find?_some hfind
    simp only [beq_iff_eq] at this
    exact this ▸ hi

theorem mem_buildWorkspaces (uuids : Nat → String) (nowT : Nat) (tabs : List TabData) :
    ∀ (cs : List ClusterProposal) (i : Nat) (w : Workspace),
      w ∈ buildWorkspaces uuids nowT tabs i cs →
      ∃ j c, c ∈ cs ∧ w = mkWorkspace uuids nowT tabs j c := by
  intro cs
  induction cs with
  | nil =>
    intro i w h
    simp [buildWorkspaces] at h
  | cons c rest ih =>
    intro i w h
    rw [buildWorkspaces] at h
    rcases List.mem_cons.mp h with h1 | h1
    · exact ⟨i, c, List.mem_cons_self c rest, h1⟩
    · obtain ⟨j, c2, hc2, hw⟩ := ih (i + 1) w h1
      exact ⟨j, c2, List.mem_cons_of_mem c hc2, hw⟩

theorem truthyNat_some_ne_zero (o : Option Nat) (n : Nat)
    (h : truthyNat o = some n) : n ≠ 0 := by
  cases o with
  | none => simp [truthyNat] at h
  | some m =>
    rw [truthyNat] at h
    by_cases hm : m = 0
    · simp [hm] at h
    · rw [if_neg hm] at h
      injection h with h
      subst h
      exact hm

theorem truthyStr_some_ne_empty (o : Option String) (s : String)
    (h : truthyStr o = some s) : s ≠ "" := by
  cases o with
  | none => simp [truthyStr] at h
  | some t =>
    rw [truthyStr] at h
    by_cases ht : t = ""
    · simp [ht] at h
    · rw [if_neg ht] at h
      injection h with h
      subst h
      exact ht

/-! ### Claim theorems -/

/-- Claim C1, as stated, is false on the modelled reconciler: on input id set
`[1, 2]` the payload `cexPayload` places the invented id 99 (outside the
input set) in a workspace; validation succeeds, the result's id multiset is
`[1, 99, 2]`, and that is not a permutation of the input set `[1, 2]`. -/
theorem c1_partition_claim_cex :
    (validateClusteringResult [1, 2] cexPayload).toOption.map
        (fun r => r.workspaces.flatMap ClusterProposal.tabIds ++ r.unclustered) =
      some [1, 99, 2]
    ∧ ¬ (([1, 99, 2] : List Nat).Perm [1, 2]) := by
  constructor
  · rfl
  · decide

/-- Claim C1 (amended): for every duplicate-free input id list and every
payload all of whose referenced ids lie in the input set, any
`ClusteringResult` the reconciler produces partitions the input exactly:
the multiset union of all workspace `tabIds` and `unclustered` is a
permutation of the input ids, and the ids the model omitted are appended to
`unclustered` rather than causing failure. -/
theorem c1_partition_amended (inputIds : List Nat) (p : RawPayload)
    (r : ClusteringResult) (hI : inputIds.Nodup)
    (hsub : ∀ i ∈ allPayloadIds p, i ∈ inputIds)
    (hok : validateClusteringResult inputIds p = Except.ok r) :
    (r.workspaces.flatMap ClusterProposal.tabIds ++ r.unclustered).Perm inputIds
    ∧ r.unclustered = p.unclustered.getD [] ++
        inputIds.filter (fun i => decide (i ∉ allPayloadIds p)) := by
  obtain ⟨ws, hw, hnodup, hrw, hru⟩ := validate_ok_spec inputIds p r hok
  have hall : allPayloadIds p = flatTabIds ws ++ p.unclustered.getD [] := by
    rw [allPayloadIds, hw]
    rfl
  constructor
  · rw [hrw, hru, flatMap_normalize, ← List.append_assoc]
    have hsub2 : ∀ i ∈ flatTabIds ws ++ p.unclustered.getD [], i ∈ inputIds := by
      intro i hi
      exact hsub i (by rw [hall]; exact hi)
    exact nodup_sub_filter_perm _ inputIds hnodup hI hsub2
  · rw [hru, hall]

/-- Witness for the amended C1: input ids `[1, 2, 3]`, a payload clustering
`[1, 2]` and omitting 3; the reconciler's output partitions `[1, 2, 3]` and
appends 3 to `unclustered`. -/
theorem c1_partition_amended_witness :
    (wResult.workspaces.flatMap ClusterProposal.tabIds ++ wResult.unclustered).Perm [1, 2, 3]
    ∧ wResult.unclustered = wPayload.unclustered.getD [] ++
        List.filter (fun i => decide (i ∉ allPayloadIds wPayload)) [1, 2, 3] :=
  c1_partition_amended [1, 2, 3] wPayload wResult (by decide) (by decide) (by rfl)

/-- Claim C2: if the raw payload assigns some id twice across workspaces, or
assigns an id both to a workspace and to `unclustered`, validation fails with
a `MalformedResponse` error and produces no `ClusteringResult`. -/
theorem c2_duplicate_rejection (inputIds : List Nat) (p : RawPayload)
    (ws : List RawProposal) (hw : p.workspaces = some ws)
    (hdup : ¬ (flatTabIds ws).Nodup ∨
      ∃ i, i ∈ flatTabIds ws ∧ i ∈ p.unclustered.getD []) :
    ∃ m, validateClusteringResult inputIds p =
      Except.error (ClusterError.malformedResponse m) := by
  cases h : validateClusteringResult inputIds p with
  | ok r =>
    exfalso
    obtain ⟨ws2, hw2, hnodup, _, _⟩ := validate_ok_spec inputIds p r h
    rw [hw] at hw2
    injection hw2 with hw2
    subst hw2
    rcases List.nodup_append.mp hnodup with ⟨hn1, _, hdisj⟩
    rcases hdup with hd | ⟨i, hi1, hi2⟩
    · exact hd hn1
    · exact hdisj hi1 hi2
  | error e =>
    obtain ⟨m, hm⟩ := validate_error_shape inputIds p e h
    exact ⟨m, by rw [hm]⟩


/-- Witness for C2: a payload listing id 7 twice in one workspace is
rejected with a `MalformedResponse` error. -/
theorem c2_duplicate_rejection_witness :
    ∃ m, validateClusteringResult [7] dupPayload =
      Except.error (ClusterError.malformedResponse m) :=
  c2_duplicate_rejection [7] dupPayload dupWs rfl (Or.inl (by decide))

/-- Claim C3: `getAllTabsWithMetadata` processes the eligible raw tabs in
fixed-size batches of 10 taken in order and returns exactly one `TabData`
per input tab, in the input enumeration order (the output is pointwise
`buildTabData` of the raw tabs, whatever each extraction returned); 23
eligible tabs give batches of sizes 10, 10 and 3. -/
theorem c3_batching (cts : List ChromeTab) (calls : Nat → ScriptCall)
    (parse : String → Option URLRec) (now : Nat) :
    getAllTabsWithMetadata cts calls parse now =
      (queryAllTabs cts).map (buildTabData calls parse now)
    ∧ (getAllTabsWithMetadata cts calls parse now).length = (queryAllTabs cts).length
    ∧ (getAllTabsWithMetadata cts calls parse now).map TabData.id =
        (queryAllTabs cts).map RawTab.id
    ∧ ((queryAllTabs cts).length = 23 →
        (toBatches (queryAllTabs cts)).map List.length = [10, 10, 3]) := by
  have h1 : getAllTabsWithMetadata cts calls parse now =
      (queryAllTabs cts).map (buildTabData calls parse now) := by
    rw [getAllTabsWithMetadata, toBatches_flatten]
  refine ⟨h1, by rw [h1]; simp, ?_, ?_⟩
  · rw [h1, List.map_map]
    congr 1
  · intro h23
    rw [toBatches_lengths, h23]
    simp [chunkLens]

/-- Witness for C3: the 23 concrete eligible tabs of `fix23` are split into
batches of sizes 10, 10 and 3, and enrichment yields one record per tab. -/
theorem c3_batching_witness :
    (toBatches (queryAllTabs fix23)).map List.length = [10, 10, 3]
    ∧ (getAllTabsWithMetadata fix23 fixCallsErr fixParseNone 0).length =
        (queryAllTabs fix23).length :=
  ⟨(c3_batching fix23 fixCallsErr fixParseNone 0).2.2.2 (by rfl),
   (c3_batching fix23 fixCallsErr fixParseNone 0).2.1⟩

/-- Claim C4: `contentSnippet` is computed only when neither the (truthy)
meta description nor the (truthy) `og:description` is present; when computed
it is the body text with whitespace runs collapsed, trimmed, truncated to
500 characters, with an empty result treated as absent; a tab with a
non-empty meta description never populates `contentSnippet`. -/
theorem c4_snippet_suppression (doc : PageDoc) :
    ((truthyStr doc.metaDescription).isSome ∨ (truthyStr doc.ogDescription).isSome →
      (extractPageMetadata doc).contentSnippet = none)
    ∧ (truthyStr doc.metaDescription = none → truthyStr doc.ogDescription = none →
        (extractPageMetadata doc).contentSnippet =
          truthyStr (doc.body.map
            (fun text => String.mk ((trimWs (collapseRuns text.data)).take 500))))
    ∧ (∀ s, (extractPageMetadata doc).contentSnippet = some s →
        s ≠ "" ∧ s.data.length ≤ 500) := by
  have hsnip : (extractPageMetadata doc).contentSnippet =
      (if (truthyStr doc.metaDescription).isNone
          && (truthyStr doc.ogDescription).isNone then
        match doc.body with
        | some text =>
          truthyStr (some (String.mk ((trimWs (collapseRuns text.data)).take 500)))
        | none => none
      else none) := rfl
  refine ⟨?_, ?_, ?_⟩
  · intro h
    rw [hsnip]
    have hcond : ((truthyStr doc.metaDescription).isNone
        && (truthyStr doc.ogDescription).isNone) = false := by
      rcases h with h | h <;>
        rcases Option.isSome_iff_exists.mp h with ⟨s, hs⟩ <;> simp [hs]
    rw [hcond]
    simp
  · intro hm ho
    rw [hsnip, hm, ho]
    cases hb : doc.body <;> simp [hb, truthyStr]
  · intro s hs
    rw [hsnip] at hs
    by_cases hcond : ((truthyStr doc.metaDescription).isNone
        && (truthyStr doc.ogDescription).isNone) = true
    · rw [if_pos hcond] at hs
      cases hb : doc.body with
      | none => rw [hb] at hs; cases hs
      | some text =>
        rw [hb] at hs
        constructor
        · exact truthyStr_some_ne_empty _ s hs
        · simp only [truthyStr] at hs
          by_cases he : String.mk ((trimWs (collapseRuns text.data)).take 500) = ""
          · rw [if_pos he] at hs; cases hs
          · rw [if_neg he] at hs
            injection hs with hs
            subst hs
            simp
    · rw [if_neg hcond] at hs
      cases hs

/-- Witness for C4: a page with non-empty meta description `"hello"` gets no
`contentSnippet`; a description-free page's snippet is its collapsed,
trimmed, truncated body text. -/
theorem c4_snippet_suppression_witness :
    (extractPageMetadata fixDocDesc).contentSnippet = none
    ∧ (extractPageMetadata fixDocBody).contentSnippet =
        truthyStr (fixDocBody.body.map
          (fun text => String.mk ((trimWs (collapseRuns text.data)).take 500))) :=
  ⟨(c4_snippet_suppression fixDocDesc).1 (Or.inl (by decide)),
   (c4_snippet_suppression fixDocBody).2.1 rfl rfl⟩

/-- Claim C5: no tab whose URL matches the protected-scheme denylist survives
`queryAllTabs`, and hence none appears in the enriched output of
`getAllTabsWithMetadata`. -/
theorem c5_protected_url_exclusion (cts : List ChromeTab) (calls : Nat → ScriptCall)
    (parse : String → Option URLRec) (now : Nat) :
    (∀ r ∈ queryAllTabs cts, isProtectedUrl r.url = false)
    ∧ (∀ d ∈ getAllTabsWithMetadata cts calls parse now,
        isProtectedUrl d.url = false) := by
  constructor
  · intro r hr
    obtain ⟨ct, _, _, _, hprot, _, _⟩ := mem_queryAllTabs cts r hr
    exact hprot
  · intro d hd
    obtain ⟨r, hr, hd2⟩ := mem_getAllTabsWithMetadata cts calls parse now d hd
    obtain ⟨ct, _, _, _, hprot, _, _⟩ := mem_queryAllTabs cts r hr
    have hurl : d.url = r.url := by rw [hd2]; rfl
    rw [hurl]
    exact hprot

/-- Witness for C5: of the two host tabs in `fixCtsMix` (one `chrome://`
page, one ordinary page), only the ordinary one survives, and its URL and
its enriched record's URL are unprotected. -/
theorem c5_protected_url_exclusion_witness :
    isProtectedUrl fixR0.url = false
    ∧ isProtectedUrl (buildTabData fixCallsErr fixParseNone 0 fixR0).url = false := by
  have hq : queryAllTabs fixCtsMix = [fixR0] := by decide
  constructor
  · exact (c5_protected_url_exclusion fixCtsMix fixCallsErr fixParseNone 0).1 fixR0
      (by rw [hq]; exact List.mem_singleton.mpr rfl)
  · exact (c5_protected_url_exclusion fixCtsMix fixCallsErr fixParseNone 0).2
      (buildTabData fixCallsErr fixParseNone 0 fixR0)
      (by rw [getAllTabsWithMetadata, hq]; simp [toBatches])

/-- Claim C6: extraction races a fixed 3000 ms timeout; a timeout or a
rejected injection yields `none` instead of propagating; `buildTabData`
still returns a complete record with the three metadata fields absent; and
a failing tab never shrinks the enriched output. -/
theorem c6_timeout_isolation (call : ScriptCall) (calls : Nat → ScriptCall)
    (parse : String → Option URLRec) (now : Nat) (rawTab : RawTab)
    (cts : List ChromeTab) :
    timeoutMs = 3000
    ∧ (timeoutMs < call.latency → extractTabMetadata call = none)
    ∧ (∀ e, call.outcome = Except.error e → extractTabMetadata call = none)
    ∧ (extractTabMetadata (calls rawTab.id) = none →
        buildTabData calls parse now rawTab =
          { id := rawTab.id, url := rawTab.url, title := rawTab.title,
            domain := extractDomain parse rawTab.url,
            favicon := (truthyStr rawTab.favIconUrl).getD "",
            description := none, ogTags := none, contentSnippet := none,
            lastAccessed := (truthyNat rawTab.lastAccessed).getD now })
    ∧ (getAllTabsWithMetadata cts calls parse now).length =
        (queryAllTabs cts).length := by
  refine ⟨rfl, ?_, ?_, ?_, ?_⟩
  · intro h
    rw [extractTabMetadata, if_pos h]
  · intro e he
    simp [extractTabMetadata, he]
  · intro hmeta
    by_cases hs : rawTab.status = "complete" <;> simp [buildTabData, hs, hmeta]
  · rw [getAllTabsWithMetadata, toBatches_flatten]
    simp

/-- Witness for C6: an injection that settles after 4000 ms yields no
metadata; a rejected injection yields no metadata; a fully loaded tab whose
injection rejects still produces a complete record with absent metadata. -/
theorem c6_timeout_isolation_witness :
    (timeoutMs < fixSlowCall.latency ∧ extractTabMetadata fixSlowCall = none)
    ∧ extractTabMetadata (fixCallsErr fixRawC.id) = none
    ∧ buildTabData fixCallsErr fixParseNone 0 fixRawC =
        { id := fixRawC.id, url := fixRawC.url, title := fixRawC.title,
          domain := extractDomain fixParseNone fixRawC.url,
          favicon := (truthyStr fixRawC.favIconUrl).getD "",
          description := none, ogTags := none, contentSnippet := none,
          lastAccessed := (truthyNat fixRawC.lastAccessed).getD 0 } :=
  ⟨⟨by decide,
    (c6_timeout_isolation fixSlowCall fixCallsErr fixParseNone 0 fixRawC []).2.1 (by decide)⟩,
   (c6_timeout_isolation (fixCallsErr fixRawC.id) fixCallsErr fixParseNone 0 fixRawC []).2.2.1
     "injection failed" rfl,
   (c6_timeout_isolation fixSlowCall fixCallsErr fixParseNone 0 fixRawC []).2.2.2.1 rfl⟩

/-- Claim C7: zero enriched tabs yield the empty result and one enriched tab
with id 42 yields `{workspaces: [], unclustered: [42]}`, in both cases with
zero LLM network calls; `analyzeTabs` likewise short-circuits on zero
tabs. -/
theorem c7_short_circuit (net : List TabData → Except ClusterError RawPayload)
    (uuids : Nat → String) (nowT : Nat) :
    clusterTabs net [] = (Except.ok { workspaces := [], unclustered := [] }, 0)
    ∧ (∀ t : TabData, t.id = 42 →
        clusterTabs net [t] = (Except.ok { workspaces := [], unclustered := [42] }, 0))
    ∧ analyzeTabs net uuids nowT [] =
        (Except.ok { workspaces := [], unclustered := [] }, 0) := by
  refine ⟨rfl, ?_, rfl⟩
  intro t ht
  simp [clusterTabs, ht]

/-- Witness for C7: the concrete single tab `mkTab 42` short-circuits with
`unclustered = [42]` and zero network calls, even with a failing network. -/
theorem c7_short_circuit_witness :
    clusterTabs fixNetFail [mkTab 42] =
      (Except.ok { workspaces := [], unclustered := [42] }, 0) :=
  (c7_short_circuit fixNetFail fixUuids 0).2.1 (mkTab 42) rfl

/-- Claim C8: `extractDomain` is total on strings: it returns the parsed
URL's host when parsing succeeds and the sentinel `"unknown"` when parsing
fails, never raising. -/
theorem c8_extract_domain_total (parse : String → Option URLRec) (url : String) :
    (∀ u, parse url = some u → extractDomain parse url = u.hostname)
    ∧ (parse url = none → extractDomain parse url = "unknown") := by
  constructor
  · intro u hu
    rw [extractDomain, hu]
  · intro h
    rw [extractDomain, h]

/-- Witness for C8: a succeeding parse yields its host, a failing parse
yields `"unknown"`. -/
theorem c8_extract_domain_total_witness :
    extractDomain fixParseSome "https://a.example/x" = "e.com"
    ∧ extractDomain fixParseNone "not a url" = "unknown" :=
  ⟨(c8_extract_domain_total fixParseSome "https://a.example/x").1 { hostname := "e.com" } rfl,
   (c8_extract_domain_total fixParseNone "not a url").2 rfl⟩

/-- Claim C9: every `TabData` in a returned workspace's `tabs` or in the
returned `unclustered` list is one of the enriched input tabs; during
id-to-record resolution, ids that match no input tab are silently dropped
(never an error, never a placeholder record). -/
theorem c9_resolution_membership (net : List TabData → Except ClusterError RawPayload)
    (uuids : Nat → String) (nowT : Nat) (tabs : List TabData)
    (res : AnalysisResult) (n : Nat)
    (h : analyzeTabs net uuids nowT tabs = (Except.ok res, n)) :
    (∀ w ∈ res.workspaces, ∀ d ∈ w.tabs, d ∈ tabs)
    ∧ (∀ d ∈ res.unclustered, d ∈ tabs)
    ∧ (∀ ids : List Nat, (∀ i ∈ ids, tabMapGet tabs i = none) →
        resolveIds tabs ids = []) := by
  refine ⟨?_, ?_, ?_⟩
  · intro w hw d hd
    have hres : res.workspaces = [] ∨
        ∃ cr : ClusteringResult,
          res.workspaces = buildWorkspaces uuids nowT tabs 0 cr.workspaces := by
      rw [analyzeTabs] at h
      by_cases hlen : tabs.length = 0
      · rw [if_pos hlen] at h
        rw [Prod.mk.injEq] at h
        injection h.1 with h1
        exact Or.inl (by rw [← h1])
      · rw [if_neg hlen] at h
        rcases hct : clusterTabs net tabs with ⟨exc, m⟩
        rw [hct] at h
        cases exc with
        | error e => simp at h
        | ok cr =>
          simp only at h
          rw [Prod.mk.injEq] at h
          injection h.1 with h1
          exact Or.inr ⟨cr, by rw [← h1]⟩
    rcases hres with hres | ⟨cr, hres⟩
    · rw [hres] at hw
      simp at hw
    · rw [hres] at hw
      obtain ⟨j, c, _, hwEq⟩ := mem_buildWorkspaces uuids nowT tabs cr.workspaces 0 w hw
      rw [hwEq] at hd
      exact (mem_resolveIds tabs c.tabIds d hd).1
  · intro d hd
    have hres : res.unclustered = [] ∨
        ∃ ids : List Nat, res.unclustered = resolveIds tabs ids := by
      rw [analyzeTabs] at h
      by_cases hlen : tabs.length = 0
      · rw [if_pos hlen] at h
        rw [Prod.mk.injEq] at h
        injection h.1 with h1
        exact Or.inl (by rw [← h1])
      · rw [if_neg hlen] at h
        rcases hct : clusterTabs net tabs with ⟨exc, m⟩
        rw [hct] at h
        cases exc with
        | error e => simp at h
        | ok cr =>
          simp only at h
          rw [Prod.mk.injEq] at h
          injection h.1 with h1
          exact Or.inr ⟨cr.unclustered, by rw [← h1]⟩
    rcases hres with hres | ⟨ids, hres⟩
    · rw [hres] at hd
      simp at hd
    · rw [hres] at hd
      exact (mem_resolveIds tabs ids d hd).1
  · intro ids hnone
    rw [resolveIds]
    rw [List.filterMap_eq_nil_iff]
    exact hnone

/-- Witness for C9: a concrete successful analysis of two tabs; every
record of the resulting workspace and unclustered list comes from the
input. -/
theorem c9_resolution_membership_witness :
    (∀ w ∈ fixRes.workspaces, ∀ d ∈ w.tabs, d ∈ fixTabs)
    ∧ (∀ d ∈ fixRes.unclustered, d ∈ fixTabs)
    ∧ (∀ ids : List Nat, (∀ i ∈ ids, tabMapGet fixTabs i = none) →
        resolveIds fixTabs ids = []) :=
  c9_resolution_membership fixNetOk fixUuids 7 fixTabs fixRes 1 (by rfl)

/-- Claim C10: every raw tab surviving `queryAllTabs` has a truthy id (in
particular non-zero, so a platform id of 0 is excluded) and a truthy URL,
and arises from a host tab with those truthy values, with a missing title
defaulted to `"Untitled"`. -/
theorem c10_query_truthiness (cts : List ChromeTab) :
    ∀ r ∈ queryAllTabs cts, r.id ≠ 0 ∧ r.url ≠ "" ∧
      ∃ ct ∈ cts, truthyNat ct.id = some r.id ∧ truthyStr ct.url = some r.url ∧
        r.title = (truthyStr ct.title).getD "Untitled" := by
  intro r hr
  obtain ⟨ct, hct, hid, hurl, _, htitle, _⟩ := mem_queryAllTabs cts r hr
  exact ⟨truthyNat_some_ne_zero ct.id r.id hid,
         truthyStr_some_ne_empty ct.url r.url hurl,
         ct, hct, hid, hurl, htitle⟩

/-- Witness for C10: the surviving tab of `fixCtsMix` has a non-zero id, a
non-empty URL, and its missing title was defaulted to `"Untitled"`. -/
theorem c10_query_truthiness_witness :
    fixR0.id ≠ 0 ∧ fixR0.url ≠ "" ∧
      ∃ ct ∈ fixCtsMix, truthyNat ct.id = some fixR0.id ∧
        truthyStr ct.url = some fixR0.url ∧
        fixR0.title = (truthyStr ct.title).getD "Untitled" :=
  c10_query_truthiness fixCtsMix fixR0 (by decide)
